import Mathlib

/-!
# BlkRW: block read/write with a trailing checksum

A shallow embedding of `UefiMain` from `BlkRW/BlkRW.c`.  The C function is one long
body; the embedding follows it top-down and splits it, at the places where the source
has its section comments, into

* `parseArguments`   (source lines 59-147: shell set-up and command line),
* `openBlockDevice`  (lines 149-183: device map lookup and protocol open),
* `planSizes`        (lines 199-235: buffer size arithmetic),
* `readOperation`    (lines 250-370), `writeOperation` (lines 381-441),
* `transfer`         (lines 185-450: the checks, the allocation and the dispatch),
* `UefiMain`         (the composition).

Everything the function obtains from firmware, shell and libraries is a field of `Env`.
`UINTN` is taken to be 64 bits wide (the source stores a `UINT64` through
`(UINT64*)&Length`, so it is written for a 64-bit target); every machine operation that
can wrap carries its `% 2 ^ 64` explicitly.  Memory is little-endian, as on every UEFI
platform.  `FreePool`, `ShellCommandLineFreeVarList` and `CloseProtocol` have no effect on
any value computed and are left out of the recorded trace.
-/

namespace BlkRW

set_option maxRecDepth 100000

/-! ## Machine types and status codes -/

abbrev UINT8 := Fin 256

abbrev Bytes := List UINT8

abbrev EFI_STATUS := Nat

/-- Number of values of a `UINTN` / `UINT64`. -/
def WORD : Nat := 2 ^ 64

/-- Number of values of a `UINT32`. -/
def WORD32 : Nat := 2 ^ 32

/-- The top bit of a `UINTN`, `MAX_BIT` of the UEFI base headers. -/
def MAX_BIT : Nat := 2 ^ 63

/-- `ENCODE_ERROR (a)` of the UEFI base headers: `MAX_BIT | a` for a small code. -/
def ENCODE_ERROR (StatusCode : Nat) : EFI_STATUS := MAX_BIT + StatusCode

def EFI_SUCCESS : EFI_STATUS := 0

def EFI_INVALID_PARAMETER : EFI_STATUS := ENCODE_ERROR 2

def EFI_UNSUPPORTED : EFI_STATUS := ENCODE_ERROR 3

def EFI_OUT_OF_RESOURCES : EFI_STATUS := ENCODE_ERROR 9

def EFI_NO_MEDIA : EFI_STATUS := ENCODE_ERROR 12

def EFI_NOT_FOUND : EFI_STATUS := ENCODE_ERROR 14

def EFI_CRC_ERROR : EFI_STATUS := ENCODE_ERROR 27

/-- `EFI_ERROR (Status)` is `((INTN) Status) < 0`: the top bit of the word is set. -/
def EFI_ERROR (Status : EFI_STATUS) : Bool := decide (MAX_BIT ≤ Status % WORD)

/-! ## The environment of one invocation -/

/-- The fields of `EFI_BLOCK_IO_MEDIA` that `UefiMain` reads. -/
structure EFI_BLOCK_IO_MEDIA where
  MediaId : Nat
  MediaPresent : Bool
  BlockSize : Nat
  LastBlock : Nat
deriving DecidableEq, Repr

/-- What one run of `UefiMain` obtains from outside.

* `argv` are the positional values of the parsed command line, `argv[0]` the command
  name; `ShellCommandLineGetCount` is its length and `ShellCommandLineGetRawValue (k)`
  its `k`-th entry (NULL when there is none).
* `AllocatePool k n` tells whether the `k`-th allocation of the run, of `n` bytes,
  returns a non-NULL pointer.
* `ReadBlocks MediaId Lba BufferSize` gives the returned status and the contents of the
  buffer after the call.
* `WriteBlocks MediaId Lba BufferSize Buffer` gives the returned status.
* `Md5HashAll Data DataSize` gives the value the call returns, as it arrives in the
  `EFI_STATUS` variable it is assigned to, and the contents of the 16-byte `HashValue`
  buffer after the call.  BaseCryptLib declares the function as returning `BOOLEAN`:
  `TRUE` (1) when the digest was computed, `FALSE` (0) when it was not.
* `CalculateCrc32 Data DataSize Crc32` gives the value the boot service returns when it
  is called with the third argument `Crc32`.  UEFI declares the service as
  `EFI_STATUS CalculateCrc32 (VOID *Data, UINTN DataSize, UINT32 *Crc32)`: the CRC is
  stored through the pointer `Crc32` and the return value is a status,
  `EFI_INVALID_PARAMETER` when `Crc32` is NULL. -/
structure Env where
  ShellInitializeStatus : EFI_STATUS
  ShellCommandLineParseStatus : EFI_STATUS
  argv : List String
  ShellConvertStringToUint64 : Option String → EFI_STATUS × Nat
  ShellProtocolAvailable : Bool
  GetDevicePathFromMap : String → Bool
  LocateDevicePath : EFI_STATUS
  OpenProtocol : EFI_STATUS
  Media : EFI_BLOCK_IO_MEDIA
  AllocatePool : Nat → Nat → Bool
  ReadBlocks : Nat → Nat → Nat → EFI_STATUS × Bytes
  WriteBlocks : Nat → Nat → Nat → Bytes → EFI_STATUS
  Md5HashAll : Bytes → Nat → Nat × Bytes
  CalculateCrc32 : Bytes → Nat → Nat → Nat

/-- The `Print` calls of `UefiMain`, one constructor per format string.  `HexDump` stands
for the whole hex/ASCII dump loop and carries the bytes it displays. -/
inductive Message where
  | ShellInitFailed (Status : EFI_STATUS)
  | ParseFailed (Status : EFI_STATUS)
  | Usage
  | NoDeviceName
  | NoChecksumType
  | InvalidLba
  | InvalidLength
  | InvalidOperation (Operation : Char)
  | ShellProtocolNotAvailable
  | DeviceNotFound
  | LocateFailed (Status : EFI_STATUS)
  | OpenFailed (Status : EFI_STATUS)
  | MediaNotPresent
  | LbaRangeExceeds (LastBlock : Nat)
  | InvalidChecksumType
  | BufferTooSmall (TotalBufferSize Needed : Nat)
  | CannotAllocateBuffers (DataSize ChecksumSize : Nat)
  | Reading (Lba Length BlockSize : Nat)
  | CannotAllocateReadBuffer (TotalBufferSize : Nat)
  | ReadFailed (Status : EFI_STATUS)
  | Md5Failed (Status : EFI_STATUS)
  | ReadVerified
  | DataContent (DataSize : Nat)
  | HexDump (Data : Bytes)
  | IntegrityCheckFailed
  | ReadSuccessful (DataSize : Nat)
  | Writing (Lba Length BlockSize : Nat)
  | CannotAllocateWriteBuffer (TotalBufferSize : Nat)
  | WriteFailed (Status : EFI_STATUS)
  | WriteSuccessfulChecksum (DataSize ChecksumSize : Nat)
  | WriteSuccessful (DataSize : Nat)
deriving DecidableEq, Repr

/-- The observable steps of a run, in program order. -/
inductive Event where
  | Print (msg : Message)
  | AllocatePool (AllocationSize : Nat) (ok : Bool)
  | ReadBlocks (MediaId Lba BufferSize : Nat)
  | WriteBlocks (MediaId Lba BufferSize : Nat) (Buffer : Bytes)
deriving DecidableEq, Repr

deriving instance DecidableEq for Except

/-- The value `UefiMain` returns and the steps it took. -/
structure Outcome where
  Status : EFI_STATUS
  trace : List Event
deriving DecidableEq, Repr

/-- The local variables that are set once the command line is parsed. -/
structure Args where
  DeviceName : String
  Operation : Char
  UseChecksum : Bool
  ChecksumType : String
  Lba : Nat
  Length : Nat
deriving DecidableEq, Repr

/-- The local variables set by the size computation. -/
structure Plan where
  UseChecksum : Bool
  DataSize : Nat
  ChecksumSize : Nat
  TotalBufferSize : Nat
deriving DecidableEq, Repr

/-- An allocation or a device transfer. -/
def Event.isResourceUse : Event → Bool
  | .Print _ => false
  | .AllocatePool _ _ => true
  | .ReadBlocks _ _ _ => true
  | .WriteBlocks _ _ _ _ => true

/-- A rejected outcome: an error status, and nothing allocated or transferred. -/
def Outcome.rejected (o : Outcome) : Prop :=
  EFI_ERROR o.Status = true ∧ ∀ e ∈ o.trace, e.isResourceUse = false

/-! ## Lines 59-147: shell set-up and the command line -/

/-- The expression `((CHAR16*) ShellCommandLineGetRawValue (Package, 2))[0]`: the first
character of the value, the terminating NUL for an empty string (and for a missing
value, which cannot occur once the count is 5 or 6). -/
def firstChar16 : Option String → Char
  | some s => s.data.headD (Char.ofNat 0)
  | none => Char.ofNat 0

/-- Lines 142-147: the operation must be `r` or `w`. -/
def validateOperation (a : Args) : Except Outcome Args :=
  if a.Operation ≠ 'r' ∧ a.Operation ≠ 'w' then
    .error ⟨EFI_INVALID_PARAMETER, [.Print (.InvalidOperation a.Operation)]⟩
  else
    .ok a

/-- Lines 109-121 and 127-139: the two `ShellConvertStringToUint64` calls, on the values
at positions `k` and `k + 1`. -/
def parseNumbers (env : Env) (DeviceName : String) (Operation : Char) (UseChecksum : Bool)
    (ChecksumType : String) (k : Nat) : Except Outcome Args :=
  let rLba := env.ShellConvertStringToUint64 (env.argv.get? k)
  if EFI_ERROR rLba.1 then
    .error ⟨rLba.1, [.Print .InvalidLba]⟩
  else
    let rLen := env.ShellConvertStringToUint64 (env.argv.get? (k + 1))
    if EFI_ERROR rLen.1 then
      .error ⟨rLen.1, [.Print .InvalidLength]⟩
    else
      validateOperation
        ⟨DeviceName, Operation, UseChecksum, ChecksumType, rLba.2 % WORD, rLen.2 % WORD⟩

/-- Lines 59-147. -/
def parseArguments (env : Env) : Except Outcome Args :=
  if EFI_ERROR env.ShellInitializeStatus then
    .error ⟨env.ShellInitializeStatus,
      [.Print (.ShellInitFailed env.ShellInitializeStatus)]⟩
  else if EFI_ERROR env.ShellCommandLineParseStatus then
    .error ⟨env.ShellCommandLineParseStatus,
      [.Print (.ParseFailed env.ShellCommandLineParseStatus)]⟩
  else
    let Argc := env.argv.length
    if Argc ≠ 5 ∧ Argc ≠ 6 then
      .error ⟨EFI_INVALID_PARAMETER, [.Print .Usage]⟩
    else
      match env.argv.get? 1 with
      | none => .error ⟨EFI_INVALID_PARAMETER, [.Print .NoDeviceName]⟩
      | some DeviceName =>
        let Operation := firstChar16 (env.argv.get? 2)
        if Argc = 6 then
          match env.argv.get? 3 with
          | none => .error ⟨EFI_INVALID_PARAMETER, [.Print .NoChecksumType]⟩
          | some ChecksumType => parseNumbers env DeviceName Operation true ChecksumType 4
        else
          parseNumbers env DeviceName Operation false "none" 3

/-! ## Lines 149-183: locating the block device -/

/-- Lines 149-183. -/
def openBlockDevice (env : Env) (a : Args) : Except Outcome Unit :=
  if !env.ShellProtocolAvailable then
    .error ⟨EFI_UNSUPPORTED, [.Print .ShellProtocolNotAvailable]⟩
  else if !env.GetDevicePathFromMap a.DeviceName then
    .error ⟨EFI_NOT_FOUND, [.Print .DeviceNotFound]⟩
  else if EFI_ERROR env.LocateDevicePath then
    .error ⟨env.LocateDevicePath, [.Print (.LocateFailed env.LocateDevicePath)]⟩
  else if EFI_ERROR env.OpenProtocol then
    .error ⟨env.OpenProtocol, [.Print (.OpenFailed env.OpenProtocol)]⟩
  else
    .ok ()

/-! ## Lines 199-235: the size computation -/

/-- Lines 202-216: `ChecksumSize` and the possibly overridden `UseChecksum`, from the
string comparisons on `ChecksumType`; `none` is the `return EFI_INVALID_PARAMETER`. -/
def checksumSizeOf (ChecksumType : String) : Option (Nat × Bool) :=
  if ChecksumType = "md5" then some (16, true)
  else if ChecksumType = "crc32" then some (4, true)
  else if ChecksumType = "none" then some (0, false)
  else none

/-- Lines 199-235. -/
def planSizes (UseChecksum : Bool) (ChecksumType : String) (Length BlockSize : Nat) :
    Except Outcome Plan :=
  let TotalBufferSize := (Length * BlockSize) % WORD
  if UseChecksum then
    match checksumSizeOf ChecksumType with
    | none => .error ⟨EFI_INVALID_PARAMETER, [.Print .InvalidChecksumType]⟩
    | some (ChecksumSize, UseChecksum2) =>
      if UseChecksum2 then
        if TotalBufferSize ≤ ChecksumSize then
          .error ⟨EFI_INVALID_PARAMETER,
            [.Print (.BufferTooSmall TotalBufferSize ((ChecksumSize + 1) % WORD))]⟩
        else
          .ok ⟨UseChecksum2, TotalBufferSize - ChecksumSize, ChecksumSize, TotalBufferSize⟩
      else
        .ok ⟨UseChecksum2, TotalBufferSize, ChecksumSize, TotalBufferSize⟩
  else
    .ok ⟨false, TotalBufferSize, 0, TotalBufferSize⟩

/-! ## Little-endian words in memory -/

/-- The byte `v mod 256`. -/
def toUINT8 (v : Nat) : UINT8 := ⟨v % 256, Nat.mod_lt v (by decide)⟩

/-- The four bytes `CopyMem (ChecksumBuffer, &CrcValue, 4)` stores for a `UINT32`. -/
def storeUint32 (v : Nat) : Bytes :=
  [toUINT8 v, toUINT8 (v / 256), toUINT8 (v / 65536), toUINT8 (v / 16777216)]

/-- The value `*(UINT32*) ChecksumBuffer` loads from the first four bytes. -/
def loadUint32 (b : Bytes) : Nat :=
  (b.getD 0 0).val + 256 * (b.getD 1 0).val + 65536 * (b.getD 2 0).val
    + 16777216 * (b.getD 3 0).val

/-! ## Lines 250-370: the read operation -/

/-- Lines 279-296: the recomputation of the checksum of the data read.  Returns the
value of `Status` afterwards, `ChecksumMatch`, and what was printed. -/
def verifyChecksum (env : Env) (ChecksumType : String) (Status : EFI_STATUS)
    (DataBuffer : Bytes) (DataSize : Nat) (ChecksumBuffer : Bytes) :
    EFI_STATUS × Bool × List Event :=
  if ChecksumType = "md5" then
    let r := env.Md5HashAll DataBuffer DataSize
    let Status2 := r.1 % WORD
    let CalculatedChecksum := r.2
    if !EFI_ERROR Status2 then
      (Status2, decide (CalculatedChecksum.take 16 = ChecksumBuffer.take 16), [])
    else
      (Status2, false, [.Print (.Md5Failed Status2)])
  else if ChecksumType = "crc32" then
    let CalculatedCrc := env.CalculateCrc32 DataBuffer DataSize 0 % WORD32
    let StoredCrc := loadUint32 ChecksumBuffer
    (Status, decide (CalculatedCrc = StoredCrc), [])
  else
    (Status, false, [])

/-- Lines 250-370. -/
def readOperation (env : Env) (a : Args) (p : Plan) : Outcome :=
  let hdr : List Event := [.Print (.Reading a.Lba a.Length env.Media.BlockSize)]
  if !env.AllocatePool 2 p.TotalBufferSize then
    ⟨EFI_OUT_OF_RESOURCES, hdr ++ [.AllocatePool p.TotalBufferSize false,
      .Print (.CannotAllocateReadBuffer p.TotalBufferSize)]⟩
  else
    let r := env.ReadBlocks env.Media.MediaId a.Lba p.TotalBufferSize
    let Status := r.1
    let ReadBuffer := r.2
    let pre : List Event := hdr ++ [.AllocatePool p.TotalBufferSize true,
      .ReadBlocks env.Media.MediaId a.Lba p.TotalBufferSize]
    if EFI_ERROR Status then
      ⟨Status, pre ++ [.Print (.ReadFailed Status)]⟩
    else if p.UseChecksum then
      let DataBuffer := ReadBuffer.take p.DataSize
      let ChecksumBuffer := (ReadBuffer.drop p.DataSize).take p.ChecksumSize
      let v := verifyChecksum env a.ChecksumType Status DataBuffer p.DataSize ChecksumBuffer
      if v.2.1 then
        ⟨v.1, pre ++ v.2.2 ++ [.Print .ReadVerified, .Print (.DataContent p.DataSize),
          .Print (.HexDump DataBuffer)]⟩
      else
        ⟨EFI_CRC_ERROR, pre ++ v.2.2 ++ [.Print .IntegrityCheckFailed]⟩
    else
      let DataBuffer := ReadBuffer.take p.DataSize
      ⟨Status, pre ++ [.Print (.ReadSuccessful p.DataSize), .Print (.HexDump DataBuffer)]⟩

/-! ## Lines 372-441: the write operation -/

/-- The body of the fill loop, line 378:
`(UINT8) ((i * 1103515245 + 12345) & 0xFF)` with `i` a `UINTN`. -/
def fillByte (i : Nat) : UINT8 :=
  toUINT8 ((((i * 1103515245) % WORD + 12345) % WORD) &&& 0xFF)

/-- The loop `for (i = ...; i < DataSize; i++) DataBuffer[i] = ...`, with `n` iterations
left and the counter at `i`. -/
def fillLoop : Nat → Nat → Bytes
  | 0, _ => []
  | n + 1, i => fillByte i :: fillLoop n (i + 1)

/-- Lines 376-379: the contents of `DataBuffer` after the fill loop. -/
def fillDataBuffer (DataSize : Nat) : Bytes := fillLoop DataSize 0

/-- Lines 381-397: the computation of the checksum of the data to write.  Returns the
contents of `ChecksumBuffer` afterwards, or the status of the early `return`.  The last
branch (neither string matches) leaves the buffer as allocated; it is never taken, since
`UseChecksum` is only set for `md5` and `crc32`, and is modelled as zeroes. -/
def computeChecksum (env : Env) (ChecksumType : String) (DataBuffer : Bytes)
    (DataSize ChecksumSize : Nat) : Except Outcome Bytes :=
  if ChecksumType = "md5" then
    let r := env.Md5HashAll DataBuffer DataSize
    let Status := r.1 % WORD
    if EFI_ERROR Status then
      .error ⟨Status, [.Print (.Md5Failed Status)]⟩
    else
      .ok r.2
  else if ChecksumType = "crc32" then
    let CrcValue := env.CalculateCrc32 DataBuffer DataSize 0 % WORD32
    .ok (storeUint32 CrcValue)
  else
    .ok (List.replicate ChecksumSize 0)

/-- Lines 381-441, with `DataBuffer` the data to write (in `UefiMain`, the result of
the fill loop). -/
def writeOperation (env : Env) (a : Args) (p : Plan) (DataBuffer : Bytes) : Outcome :=
  let hdr : List Event := [.Print (.Writing a.Lba a.Length env.Media.BlockSize)]
  if p.UseChecksum then
    match computeChecksum env a.ChecksumType DataBuffer p.DataSize p.ChecksumSize with
    | .error o => ⟨o.Status, hdr ++ o.trace⟩
    | .ok ChecksumBuffer =>
      if !env.AllocatePool 2 p.TotalBufferSize then
        ⟨EFI_OUT_OF_RESOURCES, hdr ++ [.AllocatePool p.TotalBufferSize false,
          .Print (.CannotAllocateWriteBuffer p.TotalBufferSize)]⟩
      else
        let WriteBuffer := DataBuffer.take p.DataSize ++ ChecksumBuffer.take p.ChecksumSize
        let Status := env.WriteBlocks env.Media.MediaId a.Lba p.TotalBufferSize WriteBuffer
        let pre : List Event := hdr ++ [.AllocatePool p.TotalBufferSize true,
          .WriteBlocks env.Media.MediaId a.Lba p.TotalBufferSize WriteBuffer]
        if EFI_ERROR Status then
          ⟨Status, pre ++ [.Print (.WriteFailed Status)]⟩
        else
          ⟨Status, pre ++ [.Print (.WriteSuccessfulChecksum p.DataSize p.ChecksumSize)]⟩
  else
    let Status := env.WriteBlocks env.Media.MediaId a.Lba p.DataSize DataBuffer
    let pre : List Event := hdr ++ [.WriteBlocks env.Media.MediaId a.Lba p.DataSize DataBuffer]
    if EFI_ERROR Status then
      ⟨Status, pre ++ [.Print (.WriteFailed Status)]⟩
    else
      ⟨Status, pre ++ [.Print (.WriteSuccessful p.DataSize)]⟩

/-! ## Lines 185-450: checks, allocation, dispatch -/

/-- Lines 237-450: the two pool allocations and the operation. -/
def execute (env : Env) (a : Args) (p : Plan) : Outcome :=
  let dataOk := env.AllocatePool 0 p.DataSize
  let sumOk := env.AllocatePool 1 p.ChecksumSize
  let allocs : List Event :=
    [.AllocatePool p.DataSize dataOk, .AllocatePool p.ChecksumSize sumOk]
  if !dataOk || !sumOk then
    ⟨EFI_OUT_OF_RESOURCES, allocs ++ [.Print (.CannotAllocateBuffers p.DataSize p.ChecksumSize)]⟩
  else if a.Operation = 'r' then
    let o := readOperation env a p
    ⟨o.Status, allocs ++ o.trace⟩
  else
    let o := writeOperation env a p (fillDataBuffer p.DataSize)
    ⟨o.Status, allocs ++ o.trace⟩

/-- Lines 185-450. -/
def transfer (env : Env) (a : Args) : Outcome :=
  if !env.Media.MediaPresent then
    ⟨EFI_NO_MEDIA, [.Print .MediaNotPresent]⟩
  else if (a.Lba + a.Length) % WORD > (env.Media.LastBlock + 1) % WORD then
    ⟨EFI_INVALID_PARAMETER, [.Print (.LbaRangeExceeds env.Media.LastBlock)]⟩
  else
    match planSizes a.UseChecksum a.ChecksumType a.Length env.Media.BlockSize with
    | .error o => o
    | .ok p => execute env a p

/-- The entry point. -/
def UefiMain (env : Env) : Outcome :=
  match parseArguments env with
  | .error o => o
  | .ok a =>
    match openBlockDevice env a with
    | .error o => o
    | .ok _ => transfer env a

/-! ## Concrete environments used to evaluate the program -/

/-- Value of a string of decimal digits, most significant first. -/
def decimalValue : Nat → List Char → Option Nat
  | acc, [] => some acc
  | acc, c :: cs =>
    if 48 ≤ c.toNat ∧ c.toNat ≤ 57 then decimalValue (10 * acc + (c.toNat - 48)) cs else none

/-- A `ShellConvertStringToUint64` that accepts non-empty decimal numbers below `2 ^ 64`. -/
def shellConvert : Option String → EFI_STATUS × Nat
  | some s =>
    match s.data with
    | [] => (EFI_INVALID_PARAMETER, 0)
    | c :: cs =>
      match decimalValue 0 (c :: cs) with
      | some v => if v < WORD then (EFI_SUCCESS, v) else (EFI_INVALID_PARAMETER, 0)
      | none => (EFI_INVALID_PARAMETER, 0)
  | none => (EFI_INVALID_PARAMETER, 0)

/-- A stand-in for a 16-byte digest function: sixteen copies of a running sum. -/
def toyDigest (d : Bytes) : Bytes :=
  List.replicate 16 (toUINT8 (d.foldl (fun s b => 31 * s + b.val + 7) 0))

/-- The status the UEFI boot service `CalculateCrc32 (Data, DataSize, Crc32)` returns:
`EFI_INVALID_PARAMETER` when `DataSize` is 0 or the pointer `Crc32` is NULL, else
`EFI_SUCCESS`. -/
def uefiCalculateCrc32 (_Data : Bytes) (DataSize Crc32 : Nat) : Nat :=
  if DataSize = 0 ∨ Crc32 = 0 then EFI_INVALID_PARAMETER else EFI_SUCCESS

/-- Whether `BufferSize` bytes from block `Lba` lie on the medium. -/
def onMedium (Media : EFI_BLOCK_IO_MEDIA) (Lba BufferSize : Nat) : Bool :=
  decide (Lba * Media.BlockSize + BufferSize ≤ (Media.LastBlock + 1) * Media.BlockSize)

/-- A machine on which the shell, the pool and the protocol services succeed: the command
line `argv`, the device `Media`, and an `Md5HashAll` that behaves as `md5`.  The device
accepts the transfers that lie on the medium and refuses the others with
`EFI_INVALID_PARAMETER`; a read returns the bytes `stored`, padded with zeroes to the
size asked for. -/
def machine (argv : List String) (Media : EFI_BLOCK_IO_MEDIA) (stored : Bytes)
    (md5 : Bytes → Nat → Nat × Bytes) : Env where
  ShellInitializeStatus := EFI_SUCCESS
  ShellCommandLineParseStatus := EFI_SUCCESS
  argv := argv
  ShellConvertStringToUint64 := shellConvert
  ShellProtocolAvailable := true
  GetDevicePathFromMap := fun _ => true
  LocateDevicePath := EFI_SUCCESS
  OpenProtocol := EFI_SUCCESS
  Media := Media
  AllocatePool := fun _ _ => true
  ReadBlocks := fun _ Lba n =>
    if onMedium Media Lba n then (EFI_SUCCESS, (stored ++ List.replicate n 0).take n)
    else (EFI_INVALID_PARAMETER, List.replicate n 0)
  WriteBlocks := fun _ Lba n _ =>
    if onMedium Media Lba n then EFI_SUCCESS else EFI_INVALID_PARAMETER
  Md5HashAll := md5
  CalculateCrc32 := uefiCalculateCrc32

/-- `Md5HashAll` computing a digest: returns `TRUE`. -/
def md5Succeeds (d : Bytes) (_n : Nat) : Nat × Bytes := (1, toyDigest d)

/-- A device of eleven 512-byte blocks (`LastBlock = 10`). -/
def smallDisk : EFI_BLOCK_IO_MEDIA := ⟨1, true, 512, 10⟩

/-- A device of `2 ^ 55` blocks of 512 bytes (`2 ^ 64` bytes in all). -/
def hugeDisk : EFI_BLOCK_IO_MEDIA := ⟨1, true, 512, 36028797018963967⟩

/-- `BlkRW blk0 r crc32 0 36028797018963968` on `hugeDisk`: `2 ^ 55` blocks from LBA 0. -/
def envCrcOverflow : Env :=
  machine ["BlkRW", "blk0", "r", "crc32", "0", "36028797018963968"] hugeDisk [] md5Succeeds

/-- `BlkRW blk0 r 0 36028797018963968` on `hugeDisk`, the form without a checksum. -/
def envNoneOverflow : Env :=
  machine ["BlkRW", "blk0", "r", "0", "36028797018963968"] hugeDisk [] md5Succeeds

/-- `BlkRW blk0 r 18446744073709551615 2` on `smallDisk`: two blocks from LBA
`2 ^ 64 - 1`. -/
def envRangeWrap : Env :=
  machine ["BlkRW", "blk0", "r", "18446744073709551615", "2"] smallDisk [] md5Succeeds

/-- `BlkRW blk0 r 0 0` on `smallDisk`: a read of zero blocks without a checksum. -/
def envZeroRead : Env :=
  machine ["BlkRW", "blk0", "r", "0", "0"] smallDisk [] md5Succeeds

/-- `BlkRW blk0 w none 3 0` on `smallDisk`: a write of zero blocks, checksum `none`. -/
def envZeroWrite : Env :=
  machine ["BlkRW", "blk0", "w", "none", "3", "0"] smallDisk [] md5Succeeds

/-- `BlkRW blk0 r crc32 0 0` on `smallDisk`: a read of zero blocks with a CRC. -/
def envZeroCrc : Env :=
  machine ["BlkRW", "blk0", "r", "crc32", "0", "0"] smallDisk [] md5Succeeds

/-- `BlkRW blk0 w 2 1` on `smallDisk`: a write of one block without a checksum. -/
def envPlainWrite : Env :=
  machine ["BlkRW", "blk0", "w", "2", "1"] smallDisk [] md5Succeeds

/-- A device of eleven 20-byte blocks. -/
def tinyDisk : EFI_BLOCK_IO_MEDIA := ⟨1, true, 20, 10⟩

/-- The payload of the 20-byte scenario. -/
def payload4 : Bytes := [1, 2, 3, 4]

/-- The parsed arguments of `BlkRW blk0 w md5 0 1`. -/
def argsWriteMd5 : Args := ⟨"blk0", 'w', true, "md5", 0, 1⟩

/-- The parsed arguments of `BlkRW blk0 r md5 0 1`. -/
def argsReadMd5 : Args := ⟨"blk0", 'r', true, "md5", 0, 1⟩

/-- The sizes for 20 bytes with a 16-byte digest. -/
def plan20 : Plan := ⟨true, 4, 16, 20⟩

/-- `BlkRW blk0 w md5 0 1` on `tinyDisk`. -/
def envWrite20 : Env :=
  machine ["BlkRW", "blk0", "w", "md5", "0", "1"] tinyDisk [] md5Succeeds

/-- `BlkRW blk0 r md5 0 1` on `tinyDisk` holding the payload and its digest. -/
def envRead20 : Env :=
  machine ["BlkRW", "blk0", "r", "md5", "0", "1"] tinyDisk (payload4 ++ toyDigest payload4)
    md5Succeeds

/-- As `envRead20`, with the byte at offset 7 (inside the checksum region) replaced. -/
def envRead20Corrupt : Env :=
  machine ["BlkRW", "blk0", "r", "md5", "0", "1"] tinyDisk
    ((payload4 ++ toyDigest payload4).set 7 0) md5Succeeds

/-- `Md5HashAll` not computing a digest: returns `FALSE` and leaves in the buffer the
sixteen bytes it held before (here `0xAA`). -/
def md5Fails (_d : Bytes) (_n : Nat) : Nat × Bytes := (0, List.replicate 16 0xAA)

/-- The 512-byte region a write with `md5` leaves on the device when the digest is
computed: the fill pattern and its digest. -/
def writtenMd5Block : Bytes := fillDataBuffer 496 ++ toyDigest (fillDataBuffer 496)

/-- `BlkRW blk0 w md5 0 1` on `smallDisk`, with `Md5HashAll` failing. -/
def envHashFaultWrite : Env :=
  machine ["BlkRW", "blk0", "w", "md5", "0", "1"] smallDisk [] md5Fails

/-- `BlkRW blk0 r md5 0 1` on `smallDisk` holding `writtenMd5Block`, with `Md5HashAll`
failing. -/
def envHashFaultRead : Env :=
  machine ["BlkRW", "blk0", "r", "md5", "0", "1"] smallDisk writtenMd5Block md5Fails

/-- `BlkRW blk0 r md5 0 1` on `smallDisk` holding `writtenMd5Block`, every service
succeeding. -/
def envVerifiedRead : Env :=
  machine ["BlkRW", "blk0", "r", "md5", "0", "1"] smallDisk writtenMd5Block md5Succeeds

/-- `BlkRW blk0 w crc32 0 1` on `smallDisk`, every service succeeding. -/
def envCrcWrite : Env :=
  machine ["BlkRW", "blk0", "w", "crc32", "0", "1"] smallDisk [] md5Succeeds

/-- `BlkRW blk0 w crc32 0 2` on `smallDisk`, every service succeeding. -/
def envCrcWriteTwo : Env :=
  machine ["BlkRW", "blk0", "w", "crc32", "0", "2"] smallDisk [] md5Succeeds

/-! ## Helper lemmas -/

theorem toUINT8_val (v : Nat) : (toUINT8 v).val = v % 256 := rfl

theorem fillByte_val (i : Nat) : (fillByte i).val = (i * 1103515245 + 12345) % 256 := by
  simp only [fillByte, toUINT8_val, WORD]
  rw [show (0xFF : Nat) = 2 ^ 8 - 1 by norm_num, Nat.and_pow_two_sub_one_eq_mod]
  omega

theorem fillLoop_length (n i : Nat) : (fillLoop n i).length = n := by
  induction n generalizing i with
  | zero => rfl
  | succ n ih => simp [fillLoop, ih]

theorem fillLoop_getElem? (n i k : Nat) (h : k < n) :
    (fillLoop n i)[k]? = some (fillByte (i + k)) := by
  induction n generalizing i k with
  | zero => omega
  | succ n ih =>
    cases k with
    | zero => simp [fillLoop]
    | succ k =>
      simp only [fillLoop, List.getElem?_cons_succ]
      rw [ih (i + 1) k (by omega)]
      congr 2
      omega

theorem fillDataBuffer_length (DataSize : Nat) : (fillDataBuffer DataSize).length = DataSize :=
  fillLoop_length DataSize 0

/-- The checksum recomputation only prints. -/
theorem verifyChecksum_prints (env : Env) (t : String) (Status : EFI_STATUS) (D : Bytes)
    (n : Nat) (C : Bytes) (e : Event) (he : e ∈ (verifyChecksum env t Status D n C).2.2) :
    ∃ s, e = .Print (.Md5Failed s) := by
  unfold verifyChecksum at he
  simp only [] at he
  split_ifs at he
  all_goals simp at he
  exact ⟨_, he⟩

/-- An early return of the checksum computation only prints. -/
theorem computeChecksum_error (env : Env) (t : String) (D : Bytes) (n c : Nat) (o : Outcome)
    (ho : computeChecksum env t D n c = .error o) :
    t = "md5" ∧ EFI_ERROR ((env.Md5HashAll D n).1 % WORD) = true ∧
      o = ⟨(env.Md5HashAll D n).1 % WORD, [.Print (.Md5Failed ((env.Md5HashAll D n).1 % WORD))]⟩ := by
  unfold computeChecksum at ho
  simp only [] at ho
  split_ifs at ho with h1 h2 h3
  all_goals simp at ho
  exact ⟨h1, h2, ho.symm⟩

/-- No write reaches the device from the read operation. -/
theorem readOperation_no_write (env : Env) (a : Args) (p : Plan)
    (MediaId Lba BufferSize : Nat) (Buffer : Bytes) :
    Event.WriteBlocks MediaId Lba BufferSize Buffer ∉ (readOperation env a p).trace := by
  have hv : ∀ t s D n C, Event.WriteBlocks MediaId Lba BufferSize Buffer ∉
      (verifyChecksum env t s D n C).2.2 := by
    intro t s D n C h
    obtain ⟨s2, h2⟩ := verifyChecksum_prints env t s D n C _ h
    cases h2
  unfold readOperation
  simp only []
  split_ifs <;> simp [hv]

/-- The shape of a buffer handed to `WriteBlocks` by the write operation. -/
theorem writeOperation_write (env : Env) (a : Args) (p : Plan) (D : Bytes)
    (MediaId Lba BufferSize : Nat) (Buffer : Bytes)
    (hw : Event.WriteBlocks MediaId Lba BufferSize Buffer ∈ (writeOperation env a p D).trace) :
    MediaId = env.Media.MediaId ∧ Lba = a.Lba ∧
    ((p.UseChecksum = false ∧ BufferSize = p.DataSize ∧ Buffer = D) ∨
     (p.UseChecksum = true ∧ BufferSize = p.TotalBufferSize ∧
      ∃ C, computeChecksum env a.ChecksumType D p.DataSize p.ChecksumSize = .ok C ∧
        Buffer = D.take p.DataSize ++ C.take p.ChecksumSize)) := by
  unfold writeOperation at hw
  by_cases h1 : p.UseChecksum = true
  · rw [if_pos h1] at hw
    cases hC : computeChecksum env a.ChecksumType D p.DataSize p.ChecksumSize with
    | error o =>
      obtain ⟨-, -, rfl⟩ := computeChecksum_error env _ _ _ _ _ hC
      rw [hC] at hw
      simp at hw
    | ok C =>
      rw [hC] at hw
      simp only [] at hw
      split_ifs at hw <;> simp at hw
      all_goals
        obtain ⟨e1, e2, e3, e4⟩ := hw
        exact ⟨e1, e2, Or.inr ⟨h1, e3, C, rfl, e4⟩⟩
  · rw [if_neg h1] at hw
    simp only [] at hw
    split_ifs at hw <;> simp at hw
    all_goals
      obtain ⟨e1, e2, e3, e4⟩ := hw
      exact ⟨e1, e2, Or.inl ⟨by simpa using h1, e3, e4⟩⟩

/-- Every buffer `UefiMain` hands to `WriteBlocks` starts with the fill pattern. -/
theorem execute_write_payload (env : Env) (a : Args) (p : Plan)
    (MediaId Lba BufferSize : Nat) (Buffer : Bytes)
    (hw : Event.WriteBlocks MediaId Lba BufferSize Buffer ∈ (execute env a p).trace) :
    Buffer.take p.DataSize = fillDataBuffer p.DataSize := by
  unfold execute at hw
  simp only [] at hw
  split_ifs at hw with h1 h2
  · simp at hw
  · simp at hw
    exact absurd hw (readOperation_no_write env a p _ _ _ _)
  · simp at hw
    obtain ⟨-, -, h⟩ := writeOperation_write env a p _ _ _ _ _ hw
    have hl := fillDataBuffer_length p.DataSize
    have ht : (fillDataBuffer p.DataSize).take p.DataSize = fillDataBuffer p.DataSize :=
      List.take_of_length_le (by omega)
    rcases h with ⟨-, -, rfl⟩ | ⟨-, -, C, -, rfl⟩
    · exact ht
    · rw [ht, List.take_left' hl]

theorem EFI_ERROR_ENCODE_ERROR (c : Nat) (hc : c < MAX_BIT) :
    EFI_ERROR (ENCODE_ERROR c) = true := by
  simp only [EFI_ERROR, ENCODE_ERROR, MAX_BIT, WORD, decide_eq_true_eq] at *
  omega

theorem validateOperation_error (a : Args) (o : Outcome) (h : validateOperation a = .error o) :
    o.rejected := by
  unfold validateOperation at h
  split_ifs at h
  · simp only [Except.error.injEq] at h
    subst h
    exact ⟨EFI_ERROR_ENCODE_ERROR 2 (by decide), by simp [Event.isResourceUse]⟩

theorem rejected_print (Status : EFI_STATUS) (m : Message) (h : EFI_ERROR Status = true) :
    Outcome.rejected ⟨Status, [.Print m]⟩ :=
  ⟨h, by simp [Event.isResourceUse]⟩

theorem parseNumbers_error (env : Env) (d : String) (c : Char) (u : Bool) (t : String)
    (k : Nat) (o : Outcome) (h : parseNumbers env d c u t k = .error o) : o.rejected := by
  unfold parseNumbers at h
  simp only [] at h
  split_ifs at h with h1 h2
  · simp only [Except.error.injEq] at h
    subst h
    exact rejected_print _ _ h1
  · simp only [Except.error.injEq] at h
    subst h
    exact rejected_print _ _ h2
  · exact validateOperation_error _ _ h

/-- Every early return of lines 59-147 is a rejection. -/
theorem parseArguments_error (env : Env) (o : Outcome) (h : parseArguments env = .error o) :
    o.rejected := by
  unfold parseArguments at h
  simp only [] at h
  split_ifs at h with h1 h2 h3 h4
  · simp only [Except.error.injEq] at h
    subst h
    exact rejected_print _ _ h1
  · simp only [Except.error.injEq] at h
    subst h
    exact rejected_print _ _ h2
  · simp only [Except.error.injEq] at h
    subst h
    exact rejected_print _ _ (EFI_ERROR_ENCODE_ERROR 2 (by decide))
  · split at h
    · simp only [Except.error.injEq] at h
      subst h
      exact rejected_print _ _ (EFI_ERROR_ENCODE_ERROR 2 (by decide))
    · split at h
      · simp only [Except.error.injEq] at h
        subst h
        exact rejected_print _ _ (EFI_ERROR_ENCODE_ERROR 2 (by decide))
      · exact parseNumbers_error _ _ _ _ _ _ _ h
  · split at h
    · simp only [Except.error.injEq] at h
      subst h
      exact rejected_print _ _ (EFI_ERROR_ENCODE_ERROR 2 (by decide))
    · exact parseNumbers_error _ _ _ _ _ _ _ h

/-- Every early return of lines 149-183 is a rejection. -/
theorem openBlockDevice_error (env : Env) (a : Args) (o : Outcome)
    (h : openBlockDevice env a = .error o) : o.rejected := by
  unfold openBlockDevice at h
  split_ifs at h with h1 h2 h3 h4
  · simp only [Except.error.injEq] at h
    subst h
    exact rejected_print _ _ (EFI_ERROR_ENCODE_ERROR 3 (by decide))
  · simp only [Except.error.injEq] at h
    subst h
    exact rejected_print _ _ (EFI_ERROR_ENCODE_ERROR 14 (by decide))
  · simp only [Except.error.injEq] at h
    subst h
    exact rejected_print _ _ h3
  · simp only [Except.error.injEq] at h
    subst h
    exact rejected_print _ _ h4

/-- Every early return of lines 199-235 is a rejection with `EFI_INVALID_PARAMETER`. -/
theorem planSizes_error (u : Bool) (t : String) (n b : Nat) (o : Outcome)
    (h : planSizes u t n b = .error o) :
    o.Status = EFI_INVALID_PARAMETER ∧ o.rejected := by
  unfold planSizes at h
  simp only [] at h
  split_ifs at h with h1
  · split at h
    · simp only [Except.error.injEq] at h
      subst h
      exact ⟨rfl, rejected_print _ _ (EFI_ERROR_ENCODE_ERROR 2 (by decide))⟩
    · split_ifs at h
      · simp only [Except.error.injEq] at h
        subst h
        exact ⟨rfl, rejected_print _ _ (EFI_ERROR_ENCODE_ERROR 2 (by decide))⟩

theorem UefiMain_parse_error (env : Env) (o : Outcome) (hp : parseArguments env = .error o) :
    UefiMain env = o := by
  unfold UefiMain
  rw [hp]

theorem UefiMain_open_error (env : Env) (a : Args) (o : Outcome)
    (hp : parseArguments env = .ok a) (ho : openBlockDevice env a = .error o) :
    UefiMain env = o := by
  unfold UefiMain
  rw [hp]
  simp only []
  rw [ho]

theorem UefiMain_transfer (env : Env) (a : Args)
    (hp : parseArguments env = .ok a) (ho : openBlockDevice env a = .ok ()) :
    UefiMain env = transfer env a := by
  unfold UefiMain
  rw [hp]
  simp only []
  rw [ho]

/-- A run of `UefiMain` is rejected before line 237, or it is `execute` on the parsed
arguments and the computed sizes, with the medium present and the range check passed. -/
theorem UefiMain_cases (env : Env) :
    (UefiMain env).rejected ∨
    ∃ a p, parseArguments env = .ok a ∧ openBlockDevice env a = .ok () ∧
      env.Media.MediaPresent = true ∧
      ¬ ((a.Lba + a.Length) % WORD > (env.Media.LastBlock + 1) % WORD) ∧
      planSizes a.UseChecksum a.ChecksumType a.Length env.Media.BlockSize = .ok p ∧
      UefiMain env = execute env a p := by
  cases hp : parseArguments env with
  | error o =>
    rw [UefiMain_parse_error env o hp]
    exact Or.inl (parseArguments_error env o hp)
  | ok a =>
    cases ho : openBlockDevice env a with
    | error o =>
      rw [UefiMain_open_error env a o hp ho]
      exact Or.inl (openBlockDevice_error env a o ho)
    | ok u =>
      rw [UefiMain_transfer env a hp ho]
      unfold transfer
      split_ifs with h1 h2
      · exact Or.inl (rejected_print _ _ (EFI_ERROR_ENCODE_ERROR 12 (by decide)))
      · exact Or.inl (rejected_print _ _ (EFI_ERROR_ENCODE_ERROR 2 (by decide)))
      · cases hpl : planSizes a.UseChecksum a.ChecksumType a.Length env.Media.BlockSize with
        | error o => exact Or.inl (planSizes_error _ _ _ _ o hpl).2
        | ok p => exact Or.inr ⟨a, p, rfl, ho, by simpa using h1, h2, hpl, rfl⟩

/-- A run that allocates or transfers anything went through `execute`. -/
theorem UefiMain_eq_execute (env : Env) (a : Args) (p : Plan) (e : Event)
    (hp : parseArguments env = .ok a)
    (hpl : planSizes a.UseChecksum a.ChecksumType a.Length env.Media.BlockSize = .ok p)
    (he : e ∈ (UefiMain env).trace) (hr : e.isResourceUse = true) :
    UefiMain env = execute env a p := by
  rcases UefiMain_cases env with h | ⟨a2, p2, h1, -, -, -, h2, h3⟩
  · have := h.2 e he
    rw [hr] at this
    cases this
  · rw [hp] at h1
    cases h1
    rw [hpl] at h2
    cases h2
    exact h3

/-- With both pool buffers allocated, a run with operation `r` is the read operation. -/
theorem execute_read (env : Env) (a : Args) (p : Plan)
    (h0 : env.AllocatePool 0 p.DataSize = true) (h1 : env.AllocatePool 1 p.ChecksumSize = true)
    (hr : a.Operation = 'r') :
    execute env a p =
      ⟨(readOperation env a p).Status,
        [.AllocatePool p.DataSize true, .AllocatePool p.ChecksumSize true] ++
          (readOperation env a p).trace⟩ := by
  unfold execute
  simp [h0, h1, hr]

/-- With both pool buffers allocated, a run with another operation is the write
operation on the result of the fill loop. -/
theorem execute_write (env : Env) (a : Args) (p : Plan)
    (h0 : env.AllocatePool 0 p.DataSize = true) (h1 : env.AllocatePool 1 p.ChecksumSize = true)
    (hr : a.Operation ≠ 'r') :
    execute env a p =
      ⟨(writeOperation env a p (fillDataBuffer p.DataSize)).Status,
        [.AllocatePool p.DataSize true, .AllocatePool p.ChecksumSize true] ++
          (writeOperation env a p (fillDataBuffer p.DataSize)).trace⟩ := by
  unfold execute
  simp [h0, h1, hr]

/-! ## The fill pattern -/

/-- C7.  Every buffer that `UefiMain` hands to `WriteBlocks` holds, at each offset `i`
below the planned `DataSize`, the byte `(i * 1103515245 + 12345) mod 256` computed over
the unbounded integers, although the program computes it in wrapping 64-bit arithmetic;
hence two runs with the same `DataSize` write the same payload bytes. -/
theorem C7_fill_pattern (env1 env2 : Env) (a1 a2 : Args) (p1 p2 : Plan)
    (m1 l1 s1 m2 l2 s2 : Nat) (B1 B2 : Bytes)
    (hp1 : parseArguments env1 = .ok a1)
    (hpl1 : planSizes a1.UseChecksum a1.ChecksumType a1.Length env1.Media.BlockSize = .ok p1)
    (hw1 : Event.WriteBlocks m1 l1 s1 B1 ∈ (UefiMain env1).trace)
    (hp2 : parseArguments env2 = .ok a2)
    (hpl2 : planSizes a2.UseChecksum a2.ChecksumType a2.Length env2.Media.BlockSize = .ok p2)
    (hw2 : Event.WriteBlocks m2 l2 s2 B2 ∈ (UefiMain env2).trace)
    (hsize : p1.DataSize = p2.DataSize) :
    (∀ i, i < p1.DataSize → B1[i]?.map Fin.val = some ((i * 1103515245 + 12345) % 256)) ∧
    B1.take p1.DataSize = B2.take p2.DataSize := by
  rw [UefiMain_eq_execute env1 a1 p1 _ hp1 hpl1 hw1 rfl] at hw1
  rw [UefiMain_eq_execute env2 a2 p2 _ hp2 hpl2 hw2 rfl] at hw2
  have e1 := execute_write_payload env1 a1 p1 _ _ _ _ hw1
  have e2 := execute_write_payload env2 a2 p2 _ _ _ _ hw2
  refine ⟨?_, by rw [e1, e2, hsize]⟩
  intro i hi
  have h3 : B1[i]? = (B1.take p1.DataSize)[i]? := by
    rw [List.getElem?_take_of_lt hi]
  rw [h3, e1, fillDataBuffer, fillLoop_getElem? _ _ _ hi]
  simp [fillByte_val]

theorem C7_fill_pattern_witness :
    parseArguments envPlainWrite = .ok ⟨"blk0", 'w', false, "none", 2, 1⟩ ∧
    planSizes false "none" 1 512 = .ok ⟨false, 512, 0, 512⟩ ∧
    Event.WriteBlocks 1 2 512 (fillDataBuffer 512) ∈ (UefiMain envPlainWrite).trace ∧
    ((∀ i, i < 512 →
        (fillDataBuffer 512)[i]?.map Fin.val = some ((i * 1103515245 + 12345) % 256)) ∧
      (fillDataBuffer 512).take 512 = (fillDataBuffer 512).take 512) :=
  ⟨by decide, by decide, by decide,
    C7_fill_pattern envPlainWrite envPlainWrite ⟨"blk0", 'w', false, "none", 2, 1⟩
      ⟨"blk0", 'w', false, "none", 2, 1⟩ ⟨false, 512, 0, 512⟩ ⟨false, 512, 0, 512⟩
      1 2 512 1 2 512 (fillDataBuffer 512) (fillDataBuffer 512)
      (by decide) (by decide) (by decide) (by decide) (by decide) (by decide) rfl⟩

/-! ## The size computation -/

theorem planSizes_md5 (n b : Nat) :
    planSizes true "md5" n b =
      if (n * b) % WORD ≤ 16 then
        .error ⟨EFI_INVALID_PARAMETER, [.Print (.BufferTooSmall ((n * b) % WORD) 17)]⟩
      else .ok ⟨true, (n * b) % WORD - 16, 16, (n * b) % WORD⟩ := by
  simp [planSizes, checksumSizeOf, WORD]

theorem planSizes_crc32 (n b : Nat) :
    planSizes true "crc32" n b =
      if (n * b) % WORD ≤ 4 then
        .error ⟨EFI_INVALID_PARAMETER, [.Print (.BufferTooSmall ((n * b) % WORD) 5)]⟩
      else .ok ⟨true, (n * b) % WORD - 4, 4, (n * b) % WORD⟩ := by
  simp [planSizes, checksumSizeOf, WORD]

theorem planSizes_none (n b : Nat) :
    planSizes true "none" n b = .ok ⟨false, (n * b) % WORD, 0, (n * b) % WORD⟩ := by
  simp [planSizes, checksumSizeOf]

theorem planSizes_unused (t : String) (n b : Nat) :
    planSizes false t n b = .ok ⟨false, (n * b) % WORD, 0, (n * b) % WORD⟩ := by
  simp [planSizes]

/-- A run whose size computation fails is rejected. -/
theorem UefiMain_rejected_of_plan_error (env : Env) (a : Args) (o : Outcome)
    (hp : parseArguments env = .ok a)
    (hpl : planSizes a.UseChecksum a.ChecksumType a.Length env.Media.BlockSize = .error o) :
    (UefiMain env).rejected := by
  rcases UefiMain_cases env with h | ⟨a2, p2, h1, -, -, -, h2, -⟩
  · exact h
  · rw [hp] at h1
    cases h1
    rw [hpl] at h2
    cases h2

/-- C1, as stated, fails: the product `Length * BlockSize` is a 64-bit word.  With
`2 ^ 55` blocks of 512 bytes and mode `crc32` the product is `2 ^ 64`, far above the 4
checksum bytes, yet the size computation fails; the run `envCrcOverflow` passes the
range check and ends with `EFI_INVALID_PARAMETER` and the report of a 0-byte buffer. -/
theorem C1_counterexample :
    (∃ o, planSizes true "crc32" 36028797018963968 512 = .error o) ∧
    ¬ (36028797018963968 * 512 ≤ 4) ∧
    UefiMain envCrcOverflow =
      ⟨EFI_INVALID_PARAMETER, [.Print (.BufferTooSmall 0 5)]⟩ := by
  refine ⟨⟨⟨EFI_INVALID_PARAMETER, [.Print (.BufferTooSmall 0 5)]⟩, by decide⟩,
    by decide, by decide⟩

/-- C1, amended.  For block count `n` and block size `b` whose product fits a 64-bit
word, and mode `md5` (16 checksum bytes) or `crc32` (4): the size computation fails if
and only if `n * b` is at most the checksum size; when it fails the status is
`EFI_INVALID_PARAMETER` and the whole run ends with an error before anything is
allocated or transferred; otherwise `DataSize + ChecksumSize = n * b` and
`DataSize ≥ 1`. -/
theorem C1_plan_with_checksum (t : String) (cs n b : Nat)
    (hmode : (t = "md5" ∧ cs = 16) ∨ (t = "crc32" ∧ cs = 4)) (hnb : n * b < WORD) :
    ((∃ o, planSizes true t n b = .error o) ↔ n * b ≤ cs) ∧
    (n * b ≤ cs →
      (∃ o, planSizes true t n b = .error o ∧ o.Status = EFI_INVALID_PARAMETER) ∧
      ∀ env a, parseArguments env = .ok a → a.UseChecksum = true → a.ChecksumType = t →
        a.Length = n → env.Media.BlockSize = b → (UefiMain env).rejected) ∧
    (cs < n * b →
      ∃ p, planSizes true t n b = .ok p ∧ p.UseChecksum = true ∧ p.ChecksumSize = cs ∧
        p.TotalBufferSize = n * b ∧ p.DataSize + p.ChecksumSize = n * b ∧ 1 ≤ p.DataSize) := by
  have hmod : (n * b) % WORD = n * b := Nat.mod_eq_of_lt hnb
  have key : planSizes true t n b =
      if n * b ≤ cs then
        .error ⟨EFI_INVALID_PARAMETER, [.Print (.BufferTooSmall (n * b) (cs + 1))]⟩
      else .ok ⟨true, n * b - cs, cs, n * b⟩ := by
    rcases hmode with ⟨rfl, rfl⟩ | ⟨rfl, rfl⟩
    · rw [planSizes_md5, hmod]
    · rw [planSizes_crc32, hmod]
  refine ⟨?_, ?_, ?_⟩
  · rw [key]
    constructor
    · rintro ⟨o, ho⟩
      by_contra hc
      rw [if_neg hc] at ho
      cases ho
    · intro hle
      rw [if_pos hle]
      exact ⟨_, rfl⟩
  · intro hle
    have herr : planSizes true t n b =
        .error ⟨EFI_INVALID_PARAMETER, [.Print (.BufferTooSmall (n * b) (cs + 1))]⟩ := by
      rw [key, if_pos hle]
    refine ⟨⟨_, herr, rfl⟩, ?_⟩
    intro env a hp hu ht hn hb
    apply UefiMain_rejected_of_plan_error env a _ hp
    rw [hu, ht, hn, hb]
    exact herr
  · intro hlt
    refine ⟨⟨true, n * b - cs, cs, n * b⟩, ?_, rfl, rfl, rfl, ?_, ?_⟩
    · rw [key, if_neg (by omega)]
    · show n * b - cs + cs = n * b
      omega
    · show 1 ≤ n * b - cs
      omega

theorem C1_plan_with_checksum_witness :
    (("crc32" = "md5" ∧ 4 = 16) ∨ ("crc32" = "crc32" ∧ 4 = 4)) ∧ 1 * 4 < WORD ∧
    ((∃ o, planSizes true "crc32" 1 4 = .error o) ↔ 1 * 4 ≤ 4) :=
  ⟨Or.inr ⟨rfl, rfl⟩, by decide,
    (C1_plan_with_checksum "crc32" 4 1 4 (Or.inr ⟨rfl, rfl⟩) (by decide)).1⟩

/-- The form with five command line values leaves the checksum switched off. -/
theorem parseArguments_five (env : Env) (a : Args) (hp : parseArguments env = .ok a)
    (h5 : env.argv.length = 5) : a.UseChecksum = false ∧ a.ChecksumType = "none" := by
  unfold parseArguments at hp
  simp only [h5] at hp
  split_ifs at hp
  · simp at *
  · split at hp
    · cases hp
    · unfold parseNumbers at hp
      simp only [] at hp
      split_ifs at hp
      unfold validateOperation at hp
      split_ifs at hp
      cases hp
      exact ⟨rfl, rfl⟩

/-- C2, as stated, fails: with `2 ^ 55` blocks of 512 bytes and no checksum the product
is `2 ^ 64` while the computed `DataSize` is 0; the run `envNoneOverflow` goes on to
allocate 0 bytes and to read 0 bytes. -/
theorem C2_counterexample :
    planSizes false "none" 36028797018963968 512 = .ok ⟨false, 0, 0, 0⟩ ∧
    planSizes true "none" 36028797018963968 512 = .ok ⟨false, 0, 0, 0⟩ ∧
    ¬ (0 = 36028797018963968 * 512) ∧
    Event.ReadBlocks 1 0 0 ∈ (UefiMain envNoneOverflow).trace := by
  refine ⟨by decide, by decide, by decide, by decide⟩

/-- C2, amended.  For block count `n` and block size `b` whose product fits a 64-bit
word (also for `n = 0`), the size computation without a checksum, in the form with five
values (where `UseChecksum` is off) and in the form with six values and `none`, succeeds
with `DataSize = n * b` and `ChecksumSize = 0`. -/
theorem C2_plan_without_checksum (n b : Nat) (hnb : n * b < WORD) :
    (∀ t, planSizes false t n b = .ok ⟨false, n * b, 0, n * b⟩) ∧
    planSizes true "none" n b = .ok ⟨false, n * b, 0, n * b⟩ ∧
    (∀ env a, parseArguments env = .ok a → env.argv.length = 5 → a.Length = n →
      env.Media.BlockSize = b →
      planSizes a.UseChecksum a.ChecksumType a.Length env.Media.BlockSize =
        .ok ⟨false, n * b, 0, n * b⟩) := by
  have hmod : (n * b) % WORD = n * b := Nat.mod_eq_of_lt hnb
  refine ⟨fun t => by rw [planSizes_unused, hmod], by rw [planSizes_none, hmod], ?_⟩
  intro env a hp h5 hn hb
  rw [(parseArguments_five env a hp h5).1, hn, hb, planSizes_unused, hmod]

theorem C2_plan_without_checksum_witness :
    1 * 512 < WORD ∧ planSizes true "none" 1 512 = .ok ⟨false, 1 * 512, 0, 1 * 512⟩ :=
  ⟨by decide, (C2_plan_without_checksum 1 512 (by decide)).2.1⟩

/-! ## The range check -/

/-- Where neither side of the comparison wraps, the range check rejects every request
that ends beyond the last block. -/
theorem range_check_without_wrap (env : Env) (a : Args) (hp : parseArguments env = .ok a)
    (hsum : a.Lba + a.Length < WORD) (hlast : env.Media.LastBlock + 1 < WORD)
    (hgt : a.Lba + a.Length > env.Media.LastBlock + 1) : (UefiMain env).rejected := by
  rcases UefiMain_cases env with h | ⟨a2, p2, h1, -, -, h2, -, -⟩
  · exact h
  · rw [hp] at h1
    cases h1
    rw [Nat.mod_eq_of_lt hsum, Nat.mod_eq_of_lt hlast] at h2
    exact absurd hgt h2

/-- C5.  The range check is evaluated in wrapping 64-bit arithmetic.  On an 11-block
device (`LastBlock = 10`) the request for 2 blocks from LBA `2 ^ 64 - 1` has
`Lba + Length = 2 ^ 64 + 1 > LastBlock + 1`, yet the sum wraps to 1 and the check
passes: three buffers are allocated and `ReadBlocks` is called at LBA `2 ^ 64 - 1`; the
error the run ends with is the one the device returns. -/
theorem C5_range_check_wraps :
    parseArguments envRangeWrap = .ok ⟨"blk0", 'r', false, "none", 18446744073709551615, 2⟩ ∧
    18446744073709551615 + 2 > envRangeWrap.Media.LastBlock + 1 ∧
    UefiMain envRangeWrap =
      ⟨EFI_INVALID_PARAMETER, [.AllocatePool 1024 true, .AllocatePool 0 true,
        .Print (.Reading 18446744073709551615 2 512), .AllocatePool 1024 true,
        .ReadBlocks 1 18446744073709551615 1024,
        .Print (.ReadFailed EFI_INVALID_PARAMETER)]⟩ := by
  refine ⟨by decide, by decide, by decide⟩

/-! ## Transfers of zero blocks -/

theorem planSizes_zero (t : String) (b : Nat) (p : Plan)
    (h : planSizes true t 0 b = .ok p) : t = "none" := by
  unfold planSizes checksumSizeOf at h
  simp only [Nat.zero_mul, Nat.zero_mod, if_true] at h
  by_contra hn
  split_ifs at h
  all_goals simp at h

/-- C10, as stated, fails.  A request for 0 blocks without a checksum is not rejected:
`BlkRW blk0 r 0 0` allocates its buffers, calls `ReadBlocks` for 0 bytes and returns
`EFI_SUCCESS`, and `BlkRW blk0 w none 3 0` calls `WriteBlocks` with an empty buffer. -/
theorem C10_counterexample :
    parseArguments envZeroRead = .ok ⟨"blk0", 'r', false, "none", 0, 0⟩ ∧
    UefiMain envZeroRead =
      ⟨EFI_SUCCESS, [.AllocatePool 0 true, .AllocatePool 0 true,
        .Print (.Reading 0 0 512), .AllocatePool 0 true, .ReadBlocks 1 0 0,
        .Print (.ReadSuccessful 0), .Print (.HexDump [])]⟩ ∧
    parseArguments envZeroWrite = .ok ⟨"blk0", 'w', true, "none", 3, 0⟩ ∧
    Event.WriteBlocks 1 3 0 [] ∈ (UefiMain envZeroWrite).trace := by
  refine ⟨by decide, by decide, by decide, by decide⟩

/-- C10, amended.  When a checksum type other than `none` is given (six command line
values), a request whose `Length` is 0 ends with an error status before any buffer is
allocated and before any device read or write; so every such run that allocates a
buffer or calls `ReadBlocks` or `WriteBlocks` has `Length > 0`. -/
theorem C10_nonempty_with_checksum (env : Env) (a : Args)
    (hp : parseArguments env = .ok a) (hu : a.UseChecksum = true)
    (ht : a.ChecksumType ≠ "none") :
    (a.Length = 0 → (UefiMain env).rejected) ∧
    (∀ e ∈ (UefiMain env).trace, e.isResourceUse = true → 0 < a.Length) := by
  have h0 : a.Length = 0 → (UefiMain env).rejected := by
    intro hz
    rcases UefiMain_cases env with h | ⟨a2, p2, h1, -, -, -, h2, -⟩
    · exact h
    · rw [hp] at h1
      cases h1
      rw [hu, hz] at h2
      exact absurd (planSizes_zero _ _ _ h2) ht
  refine ⟨h0, ?_⟩
  intro e he hr
  by_contra hz
  have := (h0 (by omega)).2 e he
  rw [hr] at this
  cases this

theorem C10_nonempty_with_checksum_witness :
    parseArguments envZeroCrc = .ok ⟨"blk0", 'r', true, "crc32", 0, 0⟩ ∧
    true = true ∧ "crc32" ≠ "none" ∧
    ((0 = 0 → (UefiMain envZeroCrc).rejected) ∧
      (∀ e ∈ (UefiMain envZeroCrc).trace, e.isResourceUse = true → 0 < 0)) :=
  ⟨by decide, rfl, by decide,
    C10_nonempty_with_checksum envZeroCrc ⟨"blk0", 'r', true, "crc32", 0, 0⟩
      (by decide) rfl (by decide)⟩

/-! ## Writing and reading back -/

/-- A successful size computation with a checksum in use. -/
theorem planSizes_ok_checksum (t : String) (n b : Nat) (p : Plan)
    (h : planSizes true t n b = .ok p) (hu : p.UseChecksum = true) :
    ((t = "md5" ∧ p.ChecksumSize = 16) ∨ (t = "crc32" ∧ p.ChecksumSize = 4)) ∧
    p.DataSize + p.ChecksumSize = p.TotalBufferSize ∧ 1 ≤ p.DataSize := by
  by_cases h1 : t = "md5"
  · subst h1
    rw [planSizes_md5] at h
    split_ifs at h with hle
    cases h
    exact ⟨Or.inl ⟨rfl, rfl⟩, by simp only []; omega, by simp only []; omega⟩
  by_cases h2 : t = "crc32"
  · subst h2
    rw [planSizes_crc32] at h
    split_ifs at h with hle
    cases h
    exact ⟨Or.inr ⟨rfl, rfl⟩, by simp only []; omega, by simp only []; omega⟩
  by_cases h3 : t = "none"
  · subst h3
    rw [planSizes_none] at h
    cases h
    cases hu
  · unfold planSizes checksumSizeOf at h
    simp [h1, h2, h3] at h

theorem loadUint32_storeUint32 (v : Nat) (hv : v < WORD32) :
    loadUint32 (storeUint32 v) = v := by
  simp only [loadUint32, storeUint32, List.getD_cons_zero, List.getD_cons_succ, toUINT8_val,
    WORD32] at *
  omega

/-- The read operation once the buffer is allocated and `ReadBlocks` has succeeded with
a checksum in use. -/
theorem readOperation_checked (env : Env) (a : Args) (p : Plan) (st : EFI_STATUS) (R : Bytes)
    (halloc : env.AllocatePool 2 p.TotalBufferSize = true)
    (hread : env.ReadBlocks env.Media.MediaId a.Lba p.TotalBufferSize = (st, R))
    (hst : EFI_ERROR st = false) (hu : p.UseChecksum = true) :
    readOperation env a p =
      if (verifyChecksum env a.ChecksumType st (R.take p.DataSize) p.DataSize
          ((R.drop p.DataSize).take p.ChecksumSize)).2.1 = true then
        ⟨(verifyChecksum env a.ChecksumType st (R.take p.DataSize) p.DataSize
            ((R.drop p.DataSize).take p.ChecksumSize)).1,
          [.Print (.Reading a.Lba a.Length env.Media.BlockSize),
            .AllocatePool p.TotalBufferSize true,
            .ReadBlocks env.Media.MediaId a.Lba p.TotalBufferSize] ++
          (verifyChecksum env a.ChecksumType st (R.take p.DataSize) p.DataSize
            ((R.drop p.DataSize).take p.ChecksumSize)).2.2 ++
          [.Print .ReadVerified, .Print (.DataContent p.DataSize),
            .Print (.HexDump (R.take p.DataSize))]⟩
      else
        ⟨EFI_CRC_ERROR,
          [.Print (.Reading a.Lba a.Length env.Media.BlockSize),
            .AllocatePool p.TotalBufferSize true,
            .ReadBlocks env.Media.MediaId a.Lba p.TotalBufferSize] ++
          (verifyChecksum env a.ChecksumType st (R.take p.DataSize) p.DataSize
            ((R.drop p.DataSize).take p.ChecksumSize)).2.2 ++
          [.Print .IntegrityCheckFailed]⟩ := by
  unfold readOperation
  simp [halloc, hread, hst, hu]

/-- What the write operation hands to the device when a checksum is in use: the data
followed by the bytes left by `Md5HashAll`, or by the stored `UINT32`. -/
theorem writeOperation_buffer (env : Env) (a : Args) (p : Plan) (P W : Bytes) (m l s : Nat)
    (t : String) (n b : Nat) (ht : a.ChecksumType = t)
    (hplan : planSizes true t n b = .ok p) (hu : p.UseChecksum = true)
    (hP : P.length = p.DataSize)
    (hw : Event.WriteBlocks m l s W ∈ (writeOperation env a p P).trace) :
    m = env.Media.MediaId ∧ l = a.Lba ∧ s = p.TotalBufferSize ∧
    ((t = "md5" ∧ p.ChecksumSize = 16 ∧ W = P ++ (env.Md5HashAll P p.DataSize).2.take 16) ∨
     (t = "crc32" ∧ p.ChecksumSize = 4 ∧
        W = P ++ storeUint32 (env.CalculateCrc32 P p.DataSize 0 % WORD32))) := by
  obtain ⟨hm, hl, h⟩ := writeOperation_write env a p P m l s W hw
  rcases h with ⟨h1, -, -⟩ | ⟨-, hs, C, hC, hW⟩
  · rw [hu] at h1
    cases h1
  · refine ⟨hm, hl, hs, ?_⟩
    have hPt : P.take p.DataSize = P := List.take_of_length_le (by omega)
    rw [hPt] at hW
    rw [ht] at hC
    rcases (planSizes_ok_checksum t n b p hplan hu).1 with ⟨rfl, hcs⟩ | ⟨rfl, hcs⟩
    · left
      unfold computeChecksum at hC
      simp only [if_true] at hC
      split_ifs at hC
      cases hC
      exact ⟨rfl, hcs, by rw [hW, hcs]⟩
    · right
      unfold computeChecksum at hC
      simp only [show ¬ ("crc32" = "md5") by decide, if_false, if_true] at hC
      cases hC
      refine ⟨rfl, hcs, ?_⟩
      rw [hW, hcs]
      rfl

theorem EFI_CRC_ERROR_is_error : EFI_ERROR EFI_CRC_ERROR = true := by decide

/-- C3.  Round trip.  Let the sizes `p` come from the size computation with checksum
type `md5` or `crc32`, let the write operation hand the buffer `W` to `WriteBlocks` for
a payload `P` of `DataSize` bytes, and let a later run read the same region with the
same checksum type from a device that returns `W`.  If in both runs `Md5HashAll` leaves
the digest of its input in the buffer and returns no error status, and
`CalculateCrc32` returns the same value in both runs, then the read reports the data
as verified, displays exactly `P`, does not report a mismatch and does not end with
`EFI_CRC_ERROR` nor any other error status. -/
theorem C3_round_trip (envW envR : Env) (aW aR : Args) (p : Plan) (P W : Bytes)
    (m l s : Nat) (st : EFI_STATUS) (digest : Bytes → Bytes)
    (hplan : planSizes true aW.ChecksumType aW.Length envW.Media.BlockSize = .ok p)
    (hu : p.UseChecksum = true) (hP : P.length = p.DataSize)
    (hmd5W : ∀ d n, (envW.Md5HashAll d n).2 = digest d ∧
      EFI_ERROR ((envW.Md5HashAll d n).1 % WORD) = false)
    (hmd5R : ∀ d n, (envR.Md5HashAll d n).2 = digest d ∧
      EFI_ERROR ((envR.Md5HashAll d n).1 % WORD) = false)
    (hcrc : ∀ d n, envR.CalculateCrc32 d n 0 = envW.CalculateCrc32 d n 0)
    (hw : Event.WriteBlocks m l s W ∈ (writeOperation envW aW p P).trace)
    (htype : aR.ChecksumType = aW.ChecksumType) (hlba : aR.Lba = l)
    (hmedia : envR.Media.MediaId = m)
    (halloc : envR.AllocatePool 2 p.TotalBufferSize = true)
    (hread : envR.ReadBlocks m l s = (st, W)) (hst : EFI_ERROR st = false) :
    Event.Print .ReadVerified ∈ (readOperation envR aR p).trace ∧
    Event.Print (.HexDump P) ∈ (readOperation envR aR p).trace ∧
    Event.Print .IntegrityCheckFailed ∉ (readOperation envR aR p).trace ∧
    (readOperation envR aR p).Status ≠ EFI_CRC_ERROR ∧
    EFI_ERROR (readOperation envR aR p).Status = false := by
  obtain ⟨-, -, hs, hW⟩ :=
    writeOperation_buffer envW aW p P W m l s _ _ _ rfl hplan hu hP hw
  subst hs hlba hmedia
  rw [readOperation_checked envR aR p st W halloc hread hst hu]
  have hne : ∀ x : EFI_STATUS, EFI_ERROR x = false → x ≠ EFI_CRC_ERROR := by
    intro x hx he
    rw [he, EFI_CRC_ERROR_is_error] at hx
    cases hx
  rcases hW with ⟨ht, hcs, rfl⟩ | ⟨ht, hcs, rfl⟩
  · have hv : verifyChecksum envR aR.ChecksumType st P p.DataSize
        ((List.take 16 (envW.Md5HashAll P p.DataSize).2).take 16) =
        ((envR.Md5HashAll P p.DataSize).1 % WORD, true, []) := by
      unfold verifyChecksum
      simp [htype, ht, (hmd5R P p.DataSize).1, (hmd5R P p.DataSize).2,
        (hmd5W P p.DataSize).1, List.take_take]
    rw [List.take_left' hP, List.drop_left' hP, hcs, hv]
    simp only [if_true]
    refine ⟨by simp, by simp, by simp, hne _ (hmd5R P p.DataSize).2, (hmd5R P p.DataSize).2⟩
  · have hlt : envW.CalculateCrc32 P p.DataSize 0 % WORD32 < WORD32 :=
      Nat.mod_lt _ (by decide)
    have hv : verifyChecksum envR aR.ChecksumType st P p.DataSize
        ((storeUint32 (envW.CalculateCrc32 P p.DataSize 0 % WORD32)).take 4) =
        (st, true, []) := by
      unfold verifyChecksum
      have h4 : (storeUint32 (envW.CalculateCrc32 P p.DataSize 0 % WORD32)).take 4 =
          storeUint32 (envW.CalculateCrc32 P p.DataSize 0 % WORD32) := rfl
      rw [h4, loadUint32_storeUint32 _ hlt]
      simp [htype, ht, hcrc]
    rw [List.take_left' hP, List.drop_left' hP, hcs, hv]
    simp only [if_true]
    refine ⟨by simp, by simp, by simp, hne _ hst, hst⟩

theorem C3_round_trip_witness :
    planSizes true "md5" 1 20 = .ok plan20 ∧
    Event.WriteBlocks 1 0 20 (payload4 ++ toyDigest payload4) ∈
      (writeOperation envWrite20 argsWriteMd5 plan20 payload4).trace ∧
    envRead20.ReadBlocks 1 0 20 = (EFI_SUCCESS, payload4 ++ toyDigest payload4) ∧
    (Event.Print .ReadVerified ∈ (readOperation envRead20 argsReadMd5 plan20).trace ∧
      Event.Print (.HexDump payload4) ∈ (readOperation envRead20 argsReadMd5 plan20).trace ∧
      Event.Print .IntegrityCheckFailed ∉ (readOperation envRead20 argsReadMd5 plan20).trace ∧
      (readOperation envRead20 argsReadMd5 plan20).Status ≠ EFI_CRC_ERROR ∧
      EFI_ERROR (readOperation envRead20 argsReadMd5 plan20).Status = false) :=
  ⟨by decide, by decide, by decide,
    C3_round_trip envWrite20 envRead20 argsWriteMd5 argsReadMd5 plan20 payload4
      (payload4 ++ toyDigest payload4) 1 0 20 EFI_SUCCESS toyDigest
      (by decide) rfl rfl (fun _ _ => ⟨rfl, rfl⟩) (fun _ _ => ⟨rfl, rfl⟩)
      (fun _ _ => rfl) (by decide) rfl rfl rfl rfl (by decide) (by decide)⟩

/-! ## Corruption of the stored checksum -/

theorem set_ne_self (C : Bytes) (k : Nat) (x : UINT8) (hk : k < C.length)
    (hx : C[k]? ≠ some x) : C.set k x ≠ C := by
  intro h
  have h2 : (C.set k x)[k]? = C[k]? := by rw [h]
  rw [List.getElem?_set_self hk] at h2
  exact hx h2.symm

theorem loadUint32_set_ne (v k : Nat) (x : UINT8) (hv : v < WORD32) (hk : k < 4)
    (hx : (storeUint32 v)[k]? ≠ some x) : loadUint32 ((storeUint32 v).set k x) ≠ v := by
  have hx2 := x.isLt
  interval_cases k
  all_goals
    simp only [storeUint32, List.getElem?_cons_zero, List.getElem?_cons_succ, ne_eq,
      Option.some.injEq, Fin.ext_iff, toUINT8_val] at hx
    simp only [loadUint32, storeUint32, List.set, List.getD_cons_zero, List.getD_cons_succ,
      toUINT8_val, WORD32] at *
    omega

/-- C4.  Corruption of the stored checksum.  In the setting of the round trip, with a
digest of 16 bytes, let the device return the written buffer `W` with the single byte
at an offset `j` of the checksum region (`DataSize ≤ j < TotalBufferSize`) replaced by
a different value `x`.  Then the read ends with `EFI_CRC_ERROR`, reports the mismatch,
and neither reports the data as verified nor displays any data. -/
theorem C4_corruption_detected (envW envR : Env) (aW aR : Args) (p : Plan) (P W : Bytes)
    (m l s : Nat) (st : EFI_STATUS) (digest : Bytes → Bytes) (j : Nat) (x : UINT8)
    (hplan : planSizes true aW.ChecksumType aW.Length envW.Media.BlockSize = .ok p)
    (hu : p.UseChecksum = true) (hP : P.length = p.DataSize)
    (hdig : ∀ d, (digest d).length = 16)
    (hmd5W : ∀ d n, (envW.Md5HashAll d n).2 = digest d ∧
      EFI_ERROR ((envW.Md5HashAll d n).1 % WORD) = false)
    (hmd5R : ∀ d n, (envR.Md5HashAll d n).2 = digest d ∧
      EFI_ERROR ((envR.Md5HashAll d n).1 % WORD) = false)
    (hcrc : ∀ d n, envR.CalculateCrc32 d n 0 = envW.CalculateCrc32 d n 0)
    (hw : Event.WriteBlocks m l s W ∈ (writeOperation envW aW p P).trace)
    (htype : aR.ChecksumType = aW.ChecksumType) (hlba : aR.Lba = l)
    (hmedia : envR.Media.MediaId = m)
    (halloc : envR.AllocatePool 2 p.TotalBufferSize = true)
    (hj1 : p.DataSize ≤ j) (hj2 : j < p.TotalBufferSize) (hx : W[j]? ≠ some x)
    (hread : envR.ReadBlocks m l s = (st, W.set j x)) (hst : EFI_ERROR st = false) :
    (readOperation envR aR p).Status = EFI_CRC_ERROR ∧
    Event.Print .IntegrityCheckFailed ∈ (readOperation envR aR p).trace ∧
    Event.Print .ReadVerified ∉ (readOperation envR aR p).trace ∧
    ∀ D, Event.Print (.HexDump D) ∉ (readOperation envR aR p).trace := by
  obtain ⟨-, -, hs, hW⟩ :=
    writeOperation_buffer envW aW p P W m l s _ _ _ rfl hplan hu hP hw
  have hsum := (planSizes_ok_checksum _ _ _ p hplan hu).2.1
  subst hs hlba hmedia
  rw [readOperation_checked envR aR p st _ halloc hread hst hu]
  have hPj : P.length ≤ j := by omega
  rcases hW with ⟨ht, hcs, rfl⟩ | ⟨ht, hcs, rfl⟩
  · have hH : (envW.Md5HashAll P p.DataSize).2 = digest P := (hmd5W P p.DataSize).1
    have hH16 : List.take 16 (digest P) = digest P :=
      List.take_of_length_le (by rw [hdig])
    rw [hH, hH16] at hx hread ⊢
    rw [List.getElem?_append_right hPj] at hx
    have hk : j - P.length < (digest P).length := by rw [hdig]; omega
    have hlen : ((digest P).set (j - P.length) x).length ≤ 16 := by
      rw [List.length_set, hdig]
    have hv : verifyChecksum envR aR.ChecksumType st P p.DataSize
        ((digest P).set (j - P.length) x) =
        ((envR.Md5HashAll P p.DataSize).1 % WORD, false, []) := by
      unfold verifyChecksum
      have hne := set_ne_self (digest P) (j - P.length) x hk hx
      simp [htype, ht, (hmd5R P p.DataSize).1, (hmd5R P p.DataSize).2, hH16,
        List.take_of_length_le hlen, Ne.symm hne]
    rw [List.set_append_right _ _ hPj, List.take_left' hP, List.drop_left' hP, hcs,
      List.take_of_length_le hlen, hv]
    simp
  · have hlt : envW.CalculateCrc32 P p.DataSize 0 % WORD32 < WORD32 :=
      Nat.mod_lt _ (by decide)
    rw [List.getElem?_append_right hPj] at hx
    have hk : j - P.length < 4 := by omega
    have hlen : ((storeUint32 (envW.CalculateCrc32 P p.DataSize 0 % WORD32)).set
        (j - P.length) x).length ≤ 4 := by
      rw [List.length_set]
      exact Nat.le_refl _
    have hv : verifyChecksum envR aR.ChecksumType st P p.DataSize
        ((storeUint32 (envW.CalculateCrc32 P p.DataSize 0 % WORD32)).set (j - P.length) x) =
        (st, false, []) := by
      unfold verifyChecksum
      have hne := loadUint32_set_ne _ (j - P.length) x hlt hk hx
      simp [htype, ht, hcrc, Ne.symm hne]
    rw [List.set_append_right _ _ hPj, List.take_left' hP, List.drop_left' hP, hcs,
      List.take_of_length_le hlen, hv]
    simp

theorem C4_corruption_detected_witness :
    planSizes true "md5" 1 20 = .ok plan20 ∧
    Event.WriteBlocks 1 0 20 (payload4 ++ toyDigest payload4) ∈
      (writeOperation envWrite20 argsWriteMd5 plan20 payload4).trace ∧
    (payload4 ++ toyDigest payload4)[7]? ≠ some 0 ∧
    envRead20Corrupt.ReadBlocks 1 0 20 =
      (EFI_SUCCESS, (payload4 ++ toyDigest payload4).set 7 0) ∧
    ((readOperation envRead20Corrupt argsReadMd5 plan20).Status = EFI_CRC_ERROR ∧
      Event.Print .IntegrityCheckFailed ∈
        (readOperation envRead20Corrupt argsReadMd5 plan20).trace ∧
      Event.Print .ReadVerified ∉ (readOperation envRead20Corrupt argsReadMd5 plan20).trace ∧
      ∀ D, Event.Print (.HexDump D) ∉
        (readOperation envRead20Corrupt argsReadMd5 plan20).trace) :=
  ⟨by decide, by decide, by decide, by decide,
    C4_corruption_detected envWrite20 envRead20Corrupt argsWriteMd5 argsReadMd5 plan20
      payload4 (payload4 ++ toyDigest payload4) 1 0 20 EFI_SUCCESS toyDigest 7 0
      (by decide) rfl rfl (fun _ => by simp [toyDigest])
      (fun _ _ => ⟨rfl, rfl⟩) (fun _ _ => ⟨rfl, rfl⟩)
      (fun _ _ => rfl) (by decide) rfl rfl rfl rfl (by decide) (by decide) (by decide)
      (by decide) (by decide)⟩

/-! ## The return value of `Md5HashAll` -/

/-- Whatever value `Md5HashAll` returns, a read with `md5` has only two endings after a
successful `ReadBlocks`: the mismatch report with `EFI_CRC_ERROR`, or the report of
verified data with the value `Md5HashAll` returned as the status of the run.  A return
value that is an error status always leads to the first. -/
theorem read_md5_endings (env : Env) (a : Args) (p : Plan) (st : EFI_STATUS) (R : Bytes)
    (halloc : env.AllocatePool 2 p.TotalBufferSize = true)
    (hread : env.ReadBlocks env.Media.MediaId a.Lba p.TotalBufferSize = (st, R))
    (hst : EFI_ERROR st = false) (hu : p.UseChecksum = true)
    (ht : a.ChecksumType = "md5") :
    ((readOperation env a p).Status = EFI_CRC_ERROR ∧
      Event.Print .IntegrityCheckFailed ∈ (readOperation env a p).trace) ∨
    (EFI_ERROR ((env.Md5HashAll (R.take p.DataSize) p.DataSize).1 % WORD) = false ∧
      (readOperation env a p).Status = (env.Md5HashAll (R.take p.DataSize) p.DataSize).1 % WORD ∧
      Event.Print .ReadVerified ∈ (readOperation env a p).trace) := by
  rw [readOperation_checked env a p st R halloc hread hst hu]
  unfold verifyChecksum
  simp only [ht, if_true]
  by_cases he : EFI_ERROR ((env.Md5HashAll (R.take p.DataSize) p.DataSize).1 % WORD) = true
  · left
    simp [he]
  · simp only [Bool.not_eq_true] at he
    simp only [he, Bool.not_false, if_true]
    split_ifs with hm
    · right
      exact ⟨trivial, rfl, by simp⟩
    · left
      exact ⟨rfl, by simp⟩

/-- A read with `crc32` that reports verified data returns the status of `ReadBlocks`. -/
theorem read_crc32_status (env : Env) (a : Args) (p : Plan) (st : EFI_STATUS) (R : Bytes)
    (halloc : env.AllocatePool 2 p.TotalBufferSize = true)
    (hread : env.ReadBlocks env.Media.MediaId a.Lba p.TotalBufferSize = (st, R))
    (hst : EFI_ERROR st = false) (hu : p.UseChecksum = true)
    (ht : a.ChecksumType = "crc32")
    (hv : Event.Print .ReadVerified ∈ (readOperation env a p).trace) :
    (readOperation env a p).Status = st := by
  rw [readOperation_checked env a p st R halloc hread hst hu] at hv ⊢
  unfold verifyChecksum at hv ⊢
  simp only [ht, show ¬ ("crc32" = "md5") by decide, if_false, if_true] at hv ⊢
  split_ifs with hm
  · rfl
  · rw [if_neg hm] at hv
    simp at hv

/-- C6.  `Md5HashAll` reporting failure (`FALSE`) is not treated as an error.  The write
`BlkRW blk0 w md5 0 1` goes on to hand the device the payload followed by the sixteen
bytes the checksum buffer happened to hold, and returns `EFI_SUCCESS`; the read
`BlkRW blk0 r md5 0 1` of a correctly written block compares the stored digest with
the sixteen bytes its local buffer happened to hold and ends with the mismatch report
and `EFI_CRC_ERROR`.  Neither run prints the MD5 failure message. -/
theorem C6_hash_fault_not_an_error :
    UefiMain envHashFaultWrite =
      ⟨EFI_SUCCESS, [.AllocatePool 496 true, .AllocatePool 16 true,
        .Print (.Writing 0 1 512), .AllocatePool 512 true,
        .WriteBlocks 1 0 512 (fillDataBuffer 496 ++ List.replicate 16 0xAA),
        .Print (.WriteSuccessfulChecksum 496 16)]⟩ ∧
    UefiMain envHashFaultRead =
      ⟨EFI_CRC_ERROR, [.AllocatePool 496 true, .AllocatePool 16 true,
        .Print (.Reading 0 1 512), .AllocatePool 512 true, .ReadBlocks 1 0 512,
        .Print .IntegrityCheckFailed]⟩ := by
  refine ⟨by decide, by decide⟩

/-! ## The stored CRC -/

/-- Where the boot service returns `EFI_INVALID_PARAMETER` for the NULL pointer it is
given, the four checksum bytes of a write with `crc32` are `02 00 00 00` for every
payload. -/
theorem crc32_write_stores_status (env : Env) (a : Args) (p : Plan) (P W : Bytes)
    (m l s n b : Nat) (ht : a.ChecksumType = "crc32")
    (hplan : planSizes true "crc32" n b = .ok p) (hP : P.length = p.DataSize)
    (hnull : env.CalculateCrc32 P p.DataSize 0 = EFI_INVALID_PARAMETER)
    (hw : Event.WriteBlocks m l s W ∈ (writeOperation env a p P).trace) :
    W = P ++ [2, 0, 0, 0] := by
  have hu : p.UseChecksum = true := by
    rw [planSizes_crc32] at hplan
    split_ifs at hplan
    cases hplan
    rfl
  obtain ⟨-, -, -, hW⟩ := writeOperation_buffer env a p P W m l s _ n b ht hplan hu hP hw
  rcases hW with ⟨h1, -, -⟩ | ⟨-, -, hW⟩
  · exact absurd h1 (by decide)
  · rw [hW, hnull]
    rfl

/-- C8.  The CRC written is not a CRC of the payload.  `gBS->CalculateCrc32` is called
with a NULL third argument and its return value is stored as the checksum; the service
returns a status, `EFI_INVALID_PARAMETER` for a NULL pointer.  The writes
`BlkRW blk0 w crc32 0 1` and `BlkRW blk0 w crc32 0 2` hand the device payloads of 508 and
of 1020 bytes, each followed by the same four bytes `02 00 00 00`. -/
theorem C8_crc_is_a_status :
    UefiMain envCrcWrite =
      ⟨EFI_SUCCESS, [.AllocatePool 508 true, .AllocatePool 4 true,
        .Print (.Writing 0 1 512), .AllocatePool 512 true,
        .WriteBlocks 1 0 512 (fillDataBuffer 508 ++ [2, 0, 0, 0]),
        .Print (.WriteSuccessfulChecksum 508 4)]⟩ ∧
    UefiMain envCrcWriteTwo =
      ⟨EFI_SUCCESS, [.AllocatePool 1020 true, .AllocatePool 4 true,
        .Print (.Writing 0 2 512), .AllocatePool 1024 true,
        .WriteBlocks 1 0 1024 (fillDataBuffer 1020 ++ [2, 0, 0, 0]),
        .Print (.WriteSuccessfulChecksum 1020 4)]⟩ := by
  refine ⟨by decide, by decide⟩

/-! ## The status of a verified read -/

/-- C9.  A verified read with `md5` does not return `EFI_SUCCESS`.  The device read
succeeds, the stored digest equals the recomputed one, the data is reported as
verified and displayed, and `UefiMain` returns 1: the `TRUE` that `Md5HashAll` returned
and that was assigned to `Status`. -/
theorem C9_verified_md5_read_returns_one :
    UefiMain envVerifiedRead =
      ⟨1, [.AllocatePool 496 true, .AllocatePool 16 true,
        .Print (.Reading 0 1 512), .AllocatePool 512 true, .ReadBlocks 1 0 512,
        .Print .ReadVerified, .Print (.DataContent 496),
        .Print (.HexDump (fillDataBuffer 496))]⟩ ∧
    (1 : EFI_STATUS) ≠ EFI_SUCCESS := by
  refine ⟨by decide, by decide⟩

end BlkRW
